import Mathlib

/-!
Verification of the horizontal-scroll coordinator in `src/index.js`
(the unnamed source duplicates the same code without comments).

The script, at DOM-ready time, binds
  `const w_scr = document.querySelector("#wrap-scroll");`
  `const get_scr = () => { return -(w_scr.scrollWidth - window.innerWidth); };`
and registers a scroll trigger
  `ScrollTrigger.create({ refreshPriority: -1, trigger: w_scr, start: "top 20%",
     end: ` .. `+=$\x7bget_scr * -1\x7d` .. `, pin: true, animation: a,
     invalidateOnRefresh: true, scrub: 195 })`.

We embed the page state (the stored element lookup and the live viewport
width), the `get_scr` computation as explicit state passing (member access on
a `null` lookup throws, so the result is `Except`), the JavaScript value
coercion that the template-literal expression `get_scr * -1` performs (the
function object, not its return value, is coerced to a number), and the
literal configuration record passed to `ScrollTrigger.create`.
-/

namespace SookasemPlace

/-- A DOM element, as far as this script reads it: only its `scrollWidth`
(total horizontal content width in pixels) is ever accessed. -/
structure Element where
  scrollWidth : Int
deriving DecidableEq

/-- The live page state the script reads. `w_scr` models the stored result of
`document.querySelector("#wrap-scroll")` (`none` when the element is absent,
i.e. the lookup returned `null`); `innerWidth` models `window.innerWidth`. -/
structure PageState where
  w_scr : Option Element
  innerWidth : Int
deriving DecidableEq

/-- A JavaScript runtime error. Accessing a property of `null` raises
`TypeError`. -/
inductive JSError where
  | typeError : JSError
deriving DecidableEq

/-- Reading `w_scr.scrollWidth`: member access on the stored lookup result.
On `null` this throws a `TypeError`; a read never modifies the page. -/
def readScrollWidth (st : PageState) : Except JSError Int × PageState :=
  match st.w_scr with
  | none => (Except.error JSError.typeError, st)
  | some el => (Except.ok el.scrollWidth, st)

/-- Reading `window.innerWidth`: always succeeds, never modifies the page. -/
def readInnerWidth (st : PageState) : Int × PageState :=
  (st.innerWidth, st)

/-- The body of `get_scr` as a state transformer:
`return -(w_scr.scrollWidth - window.innerWidth);`. The two layout reads are
threaded through the state explicitly. -/
def get_scrS (st : PageState) : Except JSError Int × PageState :=
  match readScrollWidth st with
  | (Except.error e, st1) => (Except.error e, st1)
  | (Except.ok sw, st1) =>
    let (iw, st2) := readInnerWidth st1
    (Except.ok (-(sw - iw)), st2)

/-- The value `get_scr()` returns (or the error it throws) at a given page
state. -/
def get_scr (st : PageState) : Except JSError Int :=
  (get_scrS st).1

/-- Two consecutive invocations of `get_scr`, with the page state at each
invocation given explicitly (the state may have changed in between). -/
def callTwice (st1 st2 : PageState) : Except JSError Int × Except JSError Int :=
  (get_scr st1, get_scr st2)

/-- A JavaScript number: either an ordinary (here integral) number or NaN. -/
inductive JSNumber where
  | nan : JSNumber
  | int : Int → JSNumber
deriving DecidableEq

/-- JavaScript multiplication: NaN is absorbing. -/
def jsMul : JSNumber → JSNumber → JSNumber
  | JSNumber.int a, JSNumber.int b => JSNumber.int (a * b)
  | _, _ => JSNumber.nan

/-- A JavaScript value as needed here: a number, or a function object such as
the arrow function bound to `get_scr`. -/
inductive JSValue where
  | number : JSNumber → JSValue
  | closure : (PageState → Except JSError Int) → JSValue

/-- The ToNumber coercion applied by the `*` operator: a number is itself; a
function object converts (via its source-text string) to NaN. -/
def toNumber : JSValue → JSNumber
  | JSValue.number n => n
  | JSValue.closure _ => JSNumber.nan

/-- The ToString coercion applied by a template literal to a number. -/
def jsNumberToString : JSNumber → String
  | JSNumber.nan => "NaN"
  | JSNumber.int n => toString n

/-- The variable `get_scr` as a JavaScript value: a function object (the code
writes `get_scr`, without calling it, inside the template literal). -/
def get_scr_value : JSValue :=
  JSValue.closure get_scr

/-- The configuration record passed to `ScrollTrigger.create`. The animation
handle is omitted; `end` is a reserved word in Lean, so that field is named
`endParam`. -/
structure ScrollTriggerConfig where
  refreshPriority : Int
  trigger : Option Element
  start : String
  endParam : String
  pin : Bool
  invalidateOnRefresh : Bool
  scrub : Int

/-- The literal `ScrollTrigger.create` call of the script, evaluated at page
state `st`. The `end` property is the template literal whose interpolated
expression is `get_scr * -1`: the function object `get_scr` is coerced to a
number and multiplied by `-1`, and the resulting number is stringified. -/
def triggerConfig (st : PageState) : ScrollTriggerConfig where
  refreshPriority := -1
  trigger := st.w_scr
  start := "top 20%"
  endParam := "+=" ++ jsNumberToString (jsMul (toNumber get_scr_value) (JSNumber.int (-1)))
  pin := true
  invalidateOnRefresh := true
  scrub := 195

/-- A scroll observer registered with the engine, reduced to what the refresh
ordering depends on: an identifier and its `refreshPriority`. -/
structure Observer where
  id : Nat
  priority : Int
deriving DecidableEq

/-- Modelled from the spec: the external animation engine's refresh pass is
not part of this repository's sources; per the spec ("this component's
recalculation must run after the default-priority recalculation pass of any
other scroll observers") and the script's own documentation ("Negative values
refresh AFTER default (0) triggers"), the pass processes the observers with
nonnegative refresh priority first, in registration order, and then those
with negative refresh priority. -/
def refreshPass (obs : List Observer) : List Observer :=
  obs.filter (fun o => decide (0 ≤ o.priority)) ++ obs.filter (fun o => decide (o.priority < 0))

theorem mem_right_of_length_le {α : Type} (A B : List α) (i : Nat)
    (h : i < (A ++ B).length) (hle : A.length ≤ i) : (A ++ B).get ⟨i, h⟩ ∈ B := by
  induction A generalizing i with
  | nil => exact List.get_mem _ _ _
  | cons a as ih =>
    cases i with
    | zero => exact absurd hle (by simp)
    | succ n =>
      exact ih n (Nat.lt_of_succ_lt_succ h) (Nat.le_of_succ_le_succ hle)

theorem mem_left_of_lt_length {α : Type} (A B : List α) (i : Nat)
    (h : i < (A ++ B).length) (hlt : i < A.length) : (A ++ B).get ⟨i, h⟩ ∈ A := by
  induction A generalizing i with
  | nil => exact absurd hlt (by simp)
  | cons a as ih =>
    cases i with
    | zero => exact List.mem_cons_self a as
    | succ n =>
      exact List.mem_cons_of_mem _ (ih n (Nat.lt_of_succ_lt_succ h) (Nat.lt_of_succ_lt_succ hlt))

/-- C1: for every content width `c` and viewport width `v` with `c > v`,
`get_scr()` returns `-(c - v)`, a negative number whose magnitude equals the
horizontal overflow `c - v`. -/
theorem get_scr_overflow (c v : Int) (h : v < c) :
    get_scr ⟨some ⟨c⟩, v⟩ = Except.ok (-(c - v)) ∧ -(c - v) < 0 ∧ |(-(c - v))| = c - v := by
  refine ⟨rfl, by omega, ?_⟩
  rw [abs_neg]
  exact abs_of_pos (by omega)

/-- Witness for C1 at the spec's scenario: content width 3000, viewport width
1200 give `-1800`. -/
theorem get_scr_overflow_witness :
    (1200 : Int) < 3000 ∧ get_scr ⟨some ⟨3000⟩, 1200⟩ = Except.ok (-1800) := by
  have h := (get_scr_overflow 3000 1200 (by norm_num)).1
  norm_num at h
  exact ⟨by norm_num, h⟩

/-- C2 (code bug, evaluation at the failing input): at content width 3000 and
viewport width 1200, `get_scr()` would return `-1800`, but the `end` value the
script actually passes to `ScrollTrigger.create` is the string `"+=NaN"`, not
an 1800-pixel span: the template expression multiplies the uncalled function
object by `-1`. -/
theorem span_end_eval :
    (triggerConfig ⟨some ⟨3000⟩, 1200⟩).endParam = "+=NaN" ∧
    get_scr ⟨some ⟨3000⟩, 1200⟩ = Except.ok (-1800) := by
  constructor
  · rfl
  · show Except.ok (-(3000 - 1200 : Int)) = Except.ok (-1800)
    norm_num

/-- C3: for every layout state, the `end` value passed to
`ScrollTrigger.create` is the constant string `"+=NaN"`: the expression
coerces the function `get_scr` itself, not its return value, to a number. -/
theorem end_is_constant_nan (st : PageState) :
    (triggerConfig st).endParam = "+=NaN" :=
  rfl

/-- C4: `get_scr` caches nothing: when the widths changed between two calls,
the second call returns the value derived from the new widths. -/
theorem get_scr_no_caching (c1 v1 c2 v2 : Int) (h : c1 ≠ c2 ∨ v1 ≠ v2) :
    (callTwice ⟨some ⟨c1⟩, v1⟩ ⟨some ⟨c2⟩, v2⟩).2 = Except.ok (-(c2 - v2)) :=
  rfl

/-- Witness for C4: the content width shrinks from 3000 to 2000 between the
calls and the second call reflects the new width. -/
theorem get_scr_no_caching_witness :
    ((3000 : Int) ≠ 2000 ∨ (1200 : Int) ≠ 1200) ∧
    (callTwice ⟨some ⟨3000⟩, 1200⟩ ⟨some ⟨2000⟩, 1200⟩).2 = Except.ok (-(2000 - 1200)) :=
  ⟨Or.inl (by norm_num), get_scr_no_caching 3000 1200 2000 1200 (Or.inl (by norm_num))⟩

/-- C5: in the modelled refresh pass, every observer at the default priority 0
is processed strictly before an observer registered at the coordinator's
`refreshPriority` (which the script sets to `-1`). -/
theorem coordinator_refreshes_after_default (st : PageState) (obs : List Observer)
    (i j : Nat) (hi : i < (refreshPass obs).length) (hj : j < (refreshPass obs).length)
    (hd : ((refreshPass obs).get ⟨i, hi⟩).priority = 0)
    (hc : ((refreshPass obs).get ⟨j, hj⟩).priority = (triggerConfig st).refreshPriority) :
    i < j := by
  have hcp :
      ((obs.filter (fun o => decide (0 ≤ o.priority)) ++
        obs.filter (fun o => decide (o.priority < 0))).get ⟨j, hj⟩).priority = -1 := hc
  have hdp :
      ((obs.filter (fun o => decide (0 ≤ o.priority)) ++
        obs.filter (fun o => decide (o.priority < 0))).get ⟨i, hi⟩).priority = 0 := hd
  have hjA : (obs.filter (fun o => decide (0 ≤ o.priority))).length ≤ j := by
    by_contra hlt
    push_neg at hlt
    have hmem :
        ((obs.filter (fun o => decide (0 ≤ o.priority)) ++
          obs.filter (fun o => decide (o.priority < 0))).get ⟨j, hj⟩) ∈
          obs.filter (fun o => decide (0 ≤ o.priority)) :=
      mem_left_of_lt_length _ _ j hj hlt
    have hp := (List.mem_filter.mp hmem).2
    rw [decide_eq_true_iff] at hp
    omega
  have hiA : i < (obs.filter (fun o => decide (0 ≤ o.priority))).length := by
    by_contra hge
    push_neg at hge
    have hmem :
        ((obs.filter (fun o => decide (0 ≤ o.priority)) ++
          obs.filter (fun o => decide (o.priority < 0))).get ⟨i, hi⟩) ∈
          obs.filter (fun o => decide (o.priority < 0)) :=
      mem_right_of_length_le _ _ i hi hge
    have hp := (List.mem_filter.mp hmem).2
    rw [decide_eq_true_iff] at hp
    omega
  omega

/-- Witness for C5: with one default-priority observer and the coordinator's
observer, the refresh pass runs the default one first. -/
theorem coordinator_refreshes_after_default_witness : (0 : Nat) < 1 :=
  coordinator_refreshes_after_default ⟨none, 0⟩ [⟨0, 0⟩, ⟨1, -1⟩] 0 1
    (by decide) (by decide) (by decide) (by decide)

/-- C6 (code bug, evaluation at the failing input): at content width 1200 and
viewport width 1200, `get_scr()` does return `0` as claimed, but the trigger
span is not of length 0: the `end` value passed to the engine is the constant
string `"+=NaN"`. -/
theorem degenerate_case_eval :
    get_scr ⟨some ⟨1200⟩, 1200⟩ = Except.ok 0 ∧
    (triggerConfig ⟨some ⟨1200⟩, 1200⟩).endParam = "+=NaN" := by
  constructor
  · show Except.ok (-(1200 - 1200 : Int)) = Except.ok 0
    norm_num
  · rfl

/-- C7: `get_scr` is idempotent: two consecutive calls with no layout change
between them return the same value. -/
theorem get_scr_idempotent (st : PageState) :
    (callTwice st st).1 = (callTwice st st).2 :=
  rfl

/-- C8: the `start` parameter registered with the trigger is the string
`"top 20%"`, for every page state. -/
theorem start_is_top_20 (st : PageState) :
    (triggerConfig st).start = "top 20%" :=
  rfl

/-- C9 counterexample: with the container absent (the `#wrap-scroll` lookup
returned `null`), evaluating `get_scr()` does not degrade silently: member
access `w_scr.scrollWidth` on `null` raises a `TypeError` from this
component's own code. -/
theorem missing_container_raises :
    get_scr ⟨none, 1200⟩ = Except.error JSError.typeError :=
  rfl

/-- C9 amended: for every page state in which the container element is absent,
the trigger's `end` value is still the constant `"+=NaN"` (setup itself never
calls `get_scr`), but any evaluation of `get_scr()` raises a `TypeError`
(reading `scrollWidth` of `null`) rather than degrading silently into a
no-op. -/
theorem missing_container_behavior (st : PageState) (h : st.w_scr = none) :
    get_scr st = Except.error JSError.typeError ∧ (triggerConfig st).endParam = "+=NaN" := by
  constructor
  · simp [get_scr, get_scrS, readScrollWidth, h]
  · rfl

/-- Witness for the amended C9 at a concrete absent-container state. -/
theorem missing_container_behavior_witness :
    (⟨none, 800⟩ : PageState).w_scr = none ∧
    (get_scr ⟨none, 800⟩ = Except.error JSError.typeError ∧
      (triggerConfig ⟨none, 800⟩).endParam = "+=NaN") :=
  ⟨rfl, missing_container_behavior ⟨none, 800⟩ rfl⟩

/-- C10: `get_scr` has no side effects: the page state after a call, error or
not, is exactly the state before it. -/
theorem get_scr_no_side_effects (st : PageState) :
    (get_scrS st).2 = st := by
  unfold get_scrS readScrollWidth readInnerWidth
  cases st.w_scr <;> rfl

end SookasemPlace
